import Mathlib

/-!
Verification of `alphapulldown/analysis_pipeline/get_good_inter_pae.py`.

The script is shallowly embedded below.  Pure numerical code becomes Lean
functions over `ℚ`; an in-place numpy mutation is rendered by returning the
array's post-call state explicitly; Python exceptions become `Except PyErr`;
on-disk artifacts of a job directory become an explicit `JobDir` record.
Functions keep the source names (`examine_inter_pae`, `obtain_pae_and_iptm`,
`obtain_seq_lengths`, `obtain_mpdockq`).  The modules `calculate_mpdockq` and
`obtain_interface_residues` are imported by the script but are not part of
this repository's sources; the few pieces of them that the batch loop touches
are modelled from the spec and carry doc comments saying so.
-/

/-- A square error (PAE) matrix: a dimension together with an entry function.
Mirrors the numpy 2-D array loaded from a job's artifacts; only indices below
`dim` are ever read. -/
structure PaeMat where
  dim : Nat
  entry : Nat → Nat → ℚ

/-- The numpy slice assignment `m[a:b, a:b] = 50` from
`examine_inter_pae` (source line 31): every cell whose row and column both lie
in `[a, b)` becomes the sentinel `50`. -/
def maskBlock (m : PaeMat) (a b : Nat) : PaeMat :=
  { dim := m.dim
    entry := fun i j => if a ≤ i ∧ i < b ∧ a ≤ j ∧ j < b then 50 else m.entry i j }

/-- The `for length in seq_lengths` loop of `examine_inter_pae`
(source lines 28-32): successively masks the diagonal block of each chain,
threading the running offset `old_lenth`. -/
def maskLoop (m : PaeMat) (old : Nat) : List Nat → PaeMat
  | [] => m
  | l :: ls => maskLoop (maskBlock m old (old + l)) (old + l) ls

/-- `np.where(pae_mtx < cutoff)[0].size != 0` (source line 33): true iff some
cell of the matrix is strictly below the cutoff. -/
def anyBelow (m : PaeMat) (c : ℚ) : Bool :=
  (List.range m.dim).any fun i =>
    (List.range m.dim).any fun j => decide (m.entry i j < c)

/-- `examine_inter_pae(pae_mtx, seq_lengths, cutoff)` (source lines 26-35).
The Python function mutates the caller's numpy array in place by the slice
assignments and returns a boolean; here the pair holds the returned boolean
and the state of the caller's array after the call — state passing is the
shallow rendering of the in-place mutation. -/
def examine_inter_pae (pae_mtx : PaeMat) (seq_lengths : List Nat) (cutoff : ℚ) :
    Bool × PaeMat :=
  let m := maskLoop pae_mtx 0 seq_lengths
  (anyBelow m cutoff, m)

/-- The diagonal blocks `[old, old+l)` determined by the chain lengths,
with their running offsets. -/
def blockStarts : List Nat → Nat → List (Nat × Nat)
  | [], _ => []
  | l :: ls, old => (old, old + l) :: blockStarts ls (old + l)

/-- Cell `(i, j)` lies inside the single diagonal block `ab`. -/
def inBlock (i j : Nat) (ab : Nat × Nat) : Bool :=
  decide (ab.1 ≤ i ∧ i < ab.2 ∧ ab.1 ≤ j ∧ j < ab.2)

/-- Cell `(i, j)` is an intra-chain cell of the partition `ls` (both indices
fall in the same chain's diagonal block). -/
def inIntraBlock (ls : List Nat) (i j : Nat) : Bool :=
  (blockStarts ls 0).any (inBlock i j)

lemma maskBlock_dim (m : PaeMat) (a b : Nat) : (maskBlock m a b).dim = m.dim := rfl

lemma maskLoop_dim (ls : List Nat) (m : PaeMat) (old : Nat) :
    (maskLoop m old ls).dim = m.dim := by
  induction ls generalizing m old with
  | nil => rfl
  | cons l ls ih =>
    rw [maskLoop]
    exact ih (maskBlock m old (old + l)) (old + l)

lemma maskLoop_entry (ls : List Nat) (m : PaeMat) (old i j : Nat) :
    (maskLoop m old ls).entry i j =
      if (blockStarts ls old).any (inBlock i j) then 50 else m.entry i j := by
  induction ls generalizing m old with
  | nil => simp [maskLoop, blockStarts]
  | cons l ls ih =>
    rw [maskLoop, ih]
    by_cases hrest : (blockStarts ls (old + l)).any (inBlock i j) = true
    · simp [blockStarts, List.any_cons, hrest]
    · by_cases hfirst : inBlock i j (old, old + l) = true
      · simp only [inBlock, decide_eq_true_eq] at hfirst
        simp [blockStarts, List.any_cons, hrest, maskBlock, hfirst, inBlock]
      · simp only [inBlock, decide_eq_true_eq] at hfirst
        simp [blockStarts, List.any_cons, hrest, maskBlock, hfirst, inBlock]

/-- A concrete 2×2 matrix with every entry `3`, used as a counterexample
input. -/
def cexMat : PaeMat := ⟨2, fun _ _ => 3⟩

/-- C2 counterexample: `examine_inter_pae` does NOT operate on a working
copy.  On the 2×2 matrix with every entry `3` and chain lengths `[1, 1]`, the
caller's matrix after the call holds the sentinel `50` at the intra-chain
cell `(0, 0)`, while the original value there was `3`; the decidable equality
test between the two confirms they differ.  So the caller's matrix is
mutated, refuting the claim that it is left unchanged. -/
theorem examineMutatesCaller :
    ((examine_inter_pae cexMat [1, 1] 5).2).entry 0 0 = 50 ∧
    cexMat.entry 0 0 = 3 ∧
    decide (((examine_inter_pae cexMat [1, 1] 5).2).entry 0 0
              = cexMat.entry 0 0) = false :=
  ⟨rfl, rfl, by decide⟩

/-- C2 (amended): the masking is applied to the caller's matrix object
itself.  After `examine_inter_pae` returns, every intra-chain cell of the
caller's matrix equals the sentinel `50`, and every other cell is
unchanged. -/
theorem examine_masks_in_place (m : PaeMat) (ls : List Nat) (c : ℚ) (i j : Nat) :
    (inIntraBlock ls i j = true →
        ((examine_inter_pae m ls c).2).entry i j = 50) ∧
    (inIntraBlock ls i j = false →
        ((examine_inter_pae m ls c).2).entry i j = m.entry i j) := by
  unfold examine_inter_pae
  simp only [maskLoop_entry]
  unfold inIntraBlock
  constructor
  · intro h; simp [h]
  · intro h; simp [h]

/-- Witness for C2 (amended): evaluated on the concrete counterexample
matrix at the intra-chain cell `(0, 0)`. -/
theorem examine_masks_in_place_app :
    inIntraBlock [1, 1] 0 0 = true ∧
    ((examine_inter_pae cexMat [1, 1] 5).2).entry 0 0 = 50 :=
  ⟨by decide, (examine_masks_in_place cexMat [1, 1] 5 0 0).1 (by decide)⟩

/-- A concrete 1×1 single-chain matrix with entry `10`. -/
def singleMat : PaeMat := ⟨1, fun _ _ => 10⟩

/-- C3 counterexample: for a single-chain model the check does NOT return
false for every cutoff.  With the 1×1 matrix (one chain of length `1`, equal
to the full dimension) and cutoff `51`, the masked matrix holds the sentinel
`50`, `50 < 51`, and the check returns `true` — refuting the claim that a
single-chain model always yields `false` regardless of cutoff. -/
theorem singleChainTrueAtLargeCutoff :
    (examine_inter_pae singleMat [1] 51).1 = true := by decide

/-- C3 (amended): for a single-chain model (one length equal to the full
matrix dimension), `examine_inter_pae` returns false for every matrix
contents and every cutoff not exceeding the sentinel `50`.  (At cutoffs above
`50` the sentinel written by the masking itself registers, see the
counterexample.) -/
theorem single_chain_no_interface (m : PaeMat) (c : ℚ) (hc : c ≤ 50) :
    (examine_inter_pae m [m.dim] c).1 = false := by
  have hdim : (maskLoop m 0 [m.dim]).dim = m.dim := maskLoop_dim _ _ _
  have hent : ∀ i j, i < m.dim → j < m.dim →
      (maskLoop m 0 [m.dim]).entry i j = 50 := by
    intro i j hi hj
    rw [maskLoop_entry]
    have hb : inBlock i j (0, m.dim) = true := by
      simp only [inBlock, decide_eq_true_eq]
      omega
    simp [blockStarts, hb]
  show anyBelow (maskLoop m 0 [m.dim]) c = false
  apply Bool.eq_false_iff.mpr
  intro hany
  unfold anyBelow at hany
  rw [hdim] at hany
  simp only [List.any_eq_true, List.mem_range, decide_eq_true_eq] at hany
  obtain ⟨i, hi, j, hj, hx⟩ := hany
  rw [hent i j hi hj] at hx
  exact absurd hx (not_lt.mpr hc)

/-- Witness for C3 (amended): the concrete 1×1 matrix at the default cutoff
`5`. -/
theorem single_chain_no_interface_app :
    (5 : ℚ) ≤ 50 ∧ (examine_inter_pae singleMat [singleMat.dim] 5).1 = false :=
  ⟨by norm_num, single_chain_no_interface singleMat 5 (by norm_num)⟩

/-- C7: detection is monotonically non-decreasing in the cutoff.  The masked
matrix does not depend on the cutoff, and a cell strictly below `c1` is
strictly below any `c2 > c1`, so a positive check at the stricter cutoff
implies a positive check at the looser one. -/
theorem examine_inter_pae_monotone (m : PaeMat) (ls : List Nat) (c1 c2 : ℚ)
    (hlt : c1 < c2) (h : (examine_inter_pae m ls c1).1 = true) :
    (examine_inter_pae m ls c2).1 = true := by
  unfold examine_inter_pae anyBelow at h ⊢
  simp only [List.any_eq_true, List.mem_range, decide_eq_true_eq] at h ⊢
  obtain ⟨i, hi, j, hj, hx⟩ := h
  exact ⟨i, hi, j, hj, lt_trans hx hlt⟩

/-- A concrete 2×2 two-chain matrix: diagonal `10`, off-diagonal `2`. -/
def goodMat : PaeMat := ⟨2, fun i j => if i = j then 10 else 2⟩

/-- Witness for C7: on the concrete two-chain matrix, the check holds at
cutoff `3` and hence at cutoff `5`. -/
theorem examine_inter_pae_monotone_app :
    (3 : ℚ) < 5 ∧ (examine_inter_pae goodMat [1, 1] 3).1 = true ∧
    (examine_inter_pae goodMat [1, 1] 5).1 = true :=
  ⟨by norm_num, by decide,
    examine_inter_pae_monotone goodMat [1, 1] 3 5 (by norm_num) (by decide)⟩

/-- The Python scalar that the script stores in `iptm_score`: initially the
string literal `"None"` (source line 123), possibly Python `None` (the
default of `dict.get`, source line 125), or a numeric score. -/
inductive PyVal where
  | noneStr
  | pyNone
  | num (q : ℚ)
deriving DecidableEq

/-- The exception kinds the embedded script can raise. -/
inductive PyErr where
  | fileNotFound
  | nameError
  | keyError
  | indexError
  | unboundLocal
deriving DecidableEq

/-- The fields of a deserialized `result_*.pkl` / `result_*.pkl.gz` blob that
the script reads (source lines 144-145). -/
structure ResultDict where
  predicted_aligned_error : PaeMat
  iptm : ℚ

/-- The parsed contents of `ranking_debug.json`: the ordered model names
under `order`, and the optional `iptm` and `iptm+ptm` score mappings
(model name to scalar), rendered as association lists. -/
structure RankingFile where
  order : List String
  iptm : Option (List (String × ℚ))
  iptmPtm : Option (List (String × ℚ))

/-- Per-chain data extracted from `ranked_0.pdb`: representative (Cβ) atom
coordinates and per-residue confidence values.  Modelled from the spec
(§3, §4.1); the loader `read_pdb`/`read_plddt` lives in the module
`calculate_mpdockq`, which is not part of this repository's sources. -/
structure ChainInfo where
  cb : List (ℚ × ℚ × ℚ)
  plddt : List ℚ

/-- Squared Euclidean distance between two 3-D points; comparing it with
`64` renders the 8 Å contact threshold exactly over `ℚ`. -/
def sqDist (p q : ℚ × ℚ × ℚ) : ℚ :=
  (p.1 - q.1) * (p.1 - q.1) + (p.2.1 - q.2.1) * (p.2.1 - q.2.1) +
    (p.2.2 - q.2.2) * (p.2.2 - q.2.2)

/-- Number of contacting atom pairs between two chains: pairs of
representative atoms whose distance is below 8 Å (spec §4.3). -/
def contactsBetween (a b : ChainInfo) : Nat :=
  (a.cb.map fun p => (b.cb.filter fun q => decide (sqDist p q < 64)).length).sum

/-- Total inter-chain contact count over all unordered pairs of distinct
chains (spec §4.3). -/
def totalContacts : List ChainInfo → Nat
  | [] => 0
  | c :: rest => (rest.map (contactsBetween c)).sum + totalContacts rest

/-- Modelled from the spec: the numeric value of the composite complex score
(§4.3) when it is defined.  The published functional form is an external
reference constant table (spec §9, open question) and its exact value is not
used by any claim below; this executable stand-in aggregates confidence and
contact count as the spec describes. -/
def compositeScore (chains : List ChainInfo) : ℚ :=
  ((chains.map fun c => c.plddt.sum).sum) * (totalContacts chains : ℚ) / 100

/-- Modelled from the spec: `score_complex` from the module
`calculate_mpdockq`, imported by the script (source line 3) but not part of
this repository's sources.  Per spec §4.3, the composite complex score is
defined only when at least two chains exist and some chain-pair has a
nonzero contact count; otherwise it is `None`.  Also returns the chain
count, as the script's call site does (source lines 44-45). -/
def score_complex (chains : List ChainInfo) : Option ℚ × Nat :=
  if 2 ≤ chains.length ∧ totalContacts chains ≠ 0 then
    (some (compositeScore chains), chains.length)
  else
    (none, chains.length)

/-- A bounded saturating map into `(0, 1)`, the `ℚ`-computable stand-in for
the published logistic `L / (1 + exp(-k*(x - x0))) + b` (spec §4.4, whose
fitted constants are external reference data; no claim depends on the
value). -/
def sigmoidQ (x : ℚ) : ℚ := 1 / 2 + x / (2 * (1 + |x|))

/-- Modelled from the spec: the multimeric (more than two chains) dock
quality regression of `calculate_mpdockq` (§4.4). -/
def calculate_mpDockQ (x : ℚ) : ℚ := sigmoidQ (x - 1 / 4)

/-- Modelled from the spec: the two-chain dock quality regression of
`calculate_mpdockq` (§4.4), recomputed from the two chains' coordinate and
confidence data. -/
def calc_pdockq (chains : List ChainInfo) : ℚ :=
  sigmoidQ (compositeScore chains - 1 / 2)

/-- The value bound to `mpDockq_or_pdockq` in `obtain_mpdockq`
(source lines 46-52): either a numeric score or the string sentinel
`"None"`. -/
inductive DockQ where
  | score (q : ℚ)
  | noneSentinel
deriving DecidableEq

/-- The on-disk artifacts of one job directory that the script consumes.
Artifacts named by model id (`pae_*.json`, `result_*.pkl`,
`result_*.pkl.gz`) are association lists keyed by model name; an absent
key is an absent file.  `pdbSeqLengths` is the peptide-length list that
`obtain_seq_lengths` would extract from `ranked_0.pdb` (`none` = file
missing); `chains` is the per-chain data `read_pdb`/`read_plddt` would
extract from the same file (`none` = file missing). -/
structure JobDir where
  name : String
  ranking : Option RankingFile
  paeJson : List (String × PaeMat)
  pkl : List (String × ResultDict)
  pklGz : List (String × ResultDict)
  pdbSeqLengths : Option (List Nat)
  chains : Option (List ChainInfo)

/-- The `iptm_score` value after source lines 123-125: the string `"None"`
when `ranking_debug.json` has no `iptm` mapping, the Python `None` default
when the mapping exists but lacks the best model, and the numeric score
otherwise. -/
def rankingIptmOf (r : RankingFile) (best : String) : PyVal :=
  match r.iptm with
  | some m =>
    match m.lookup best with
    | some q => PyVal.num q
    | none => PyVal.pyNone
  | none => PyVal.noneStr

/-- `obtain_pae_and_iptm(result_subdir, best_model)` (source lines 116-146).
When `ranking_debug.json` is missing, the `FileNotFoundError` is caught and
logged but `ranking_results` stays unbound, so line 124 raises a
`NameError`.  When the per-model PAE JSON exists it is used and the score
keeps its ranking-derived value.  Otherwise the pickle fallback is entered
only when `iptm_score` is still the string `"None"`; inside it, a missing
`result_*.pkl` falls back to `result_*.pkl.gz`, and the `finally` block
reads matrix and score from whichever blob loaded — if both blobs are
missing, the `finally` block's use of the unbound `check_dict` raises a
`NameError` that supersedes the in-flight `FileNotFoundError`.  When the
JSON is absent and the score is already known, no branch assigns `pae_mtx`
and the `return` raises an unbound-local error. -/
def obtain_pae_and_iptm (d : JobDir) (best_model : String) :
    Except PyErr (PaeMat × PyVal) :=
  match d.ranking with
  | none => Except.error PyErr.nameError
  | some r =>
    let iptm_score := rankingIptmOf r best_model
    match d.paeJson.lookup best_model with
    | some mtx => Except.ok (mtx, iptm_score)
    | none =>
      if iptm_score = PyVal.noneStr then
        match d.pkl.lookup best_model with
        | some cd => Except.ok (cd.predicted_aligned_error, PyVal.num cd.iptm)
        | none =>
          match d.pklGz.lookup best_model with
          | some cd => Except.ok (cd.predicted_aligned_error, PyVal.num cd.iptm)
          | none => Except.error PyErr.nameError
      else Except.error PyErr.unboundLocal

/-- `obtain_seq_lengths(result_subdir)` (source lines 149-163): raises
`FileNotFoundError` when `ranked_0.pdb` is absent, otherwise returns the
peptide lengths in chain order. -/
def obtain_seq_lengths (d : JobDir) : Except PyErr (List Nat) :=
  match d.pdbSeqLengths with
  | none => Except.error PyErr.fileNotFound
  | some ls => Except.ok ls

/-- `obtain_mpdockq(work_dir)` (source lines 38-53).  A missing
`ranked_0.pdb` makes `read_pdb` raise.  Otherwise the branch on
`complex_score`/`num_chains` selects the multimeric regression, the
two-chain regression, or the string sentinel `"None"`.  The trailing
boolean instruments whether a dock-quality regression formula was applied
(true in the first two branches, false in the sentinel branch); the script
itself returns only the first two components. -/
def obtain_mpdockq (d : JobDir) : Except PyErr (DockQ × List (List ℚ) × Bool) :=
  match d.chains with
  | none => Except.error PyErr.fileNotFound
  | some chains =>
    let plddt_per_chain := chains.map fun c => c.plddt
    match score_complex chains with
    | (some cs, num_chains) =>
      if 2 < num_chains then
        Except.ok (DockQ.score (calculate_mpDockQ cs), plddt_per_chain, true)
      else if num_chains = 2 then
        Except.ok (DockQ.score (calc_pdockq chains), plddt_per_chain, true)
      else
        Except.ok (DockQ.noneSentinel, plddt_per_chain, false)
    | (none, _) => Except.ok (DockQ.noneSentinel, plddt_per_chain, false)

/-- Mean of all entries of a matrix. -/
def matMean (m : PaeMat) : ℚ :=
  (((List.range m.dim).map fun i =>
      ((List.range m.dim).map fun j => m.entry i j).sum).sum) /
    ((m.dim : ℚ) * (m.dim : ℚ))

/-- Modelled from the spec: `PDBAnalyser.__call__` from the module
`obtain_interface_residues`, imported by the script (source line 4) but not
part of this repository's sources.  Per the spec (§3, Summary Row) it
returns the mean interface error and mean interface confidence computed
from the matrix and per-chain confidence values it is handed; the claims
below depend only on WHICH matrix object it receives, not on these
values. -/
def pdbAnalyser (m : PaeMat) (plddt_per_chain : List (List ℚ)) : ℚ × ℚ :=
  (matMean m,
    ((plddt_per_chain.map List.sum).sum) /
      (((plddt_per_chain.map List.length).sum : ℚ)))

/-- One row of the output table (source lines 204-211). -/
structure SummaryRow where
  jobs : String
  iptm_ptm : ℚ
  iptm : PyVal
  average_interface_pae : ℚ
  average_interface_plddt : ℚ
  mpDockq_score : DockQ

/-- The text logged when no job was accepted (source lines 225-226),
built around the cutoff in use. -/
def noticeMessage (c : ℚ) : String :=
  "Unfortunately, none of your protein models had at least one PAE on the " ++
    "interface below your cutoff value : " ++ toString c ++
    ".\n Please consider using a larger cutoff."

/-- Observable actions of the batch pipeline `main` (source lines 166-226):
the call of `obtain_mpdockq` for a job (source line 191), the call of
`pdb_analyser` for a job together with the matrix object handed to it
(source line 194), the single `to_csv` write (source line 212), and the
empty-result log notice carrying the cutoff in use (source lines
225-226). -/
inductive BatchEvent where
  | scorerInvoked (job : String)
  | analyserCalled (job : String) (mtx : PaeMat)
  | writeCsv (rows : List SummaryRow)
  | emptyNotice (cutoff : ℚ) (msg : String)

/-- The body of the `for job in jobs` loop of `main` (source lines
174-202), for one job.  A job without `ranking_debug.json` is skipped
(line 176's `isfile` test) with no exception.  Otherwise: the best model is
`order[0]` (`IndexError` on an empty order list); if neither an `iptm` nor
an `iptm+ptm` key exists the job silently contributes nothing; if either
exists, line 185 unconditionally indexes `data['iptm+ptm']` (a `KeyError`
when only `iptm` is present, or when the best model is missing from the
mapping); then the matrix, lengths and dock score are computed in source
order, and only when the inter-PAE check succeeded is `pdb_analyser`
called — on the very matrix object `examine_inter_pae` just mutated — and a
summary row appended.  Any raised exception propagates to the caller: the
loop body has no exception handler. -/
def processJob (cutoff : ℚ) (d : JobDir) :
    Except PyErr (List BatchEvent × Option SummaryRow) :=
  match d.ranking with
  | none => Except.ok ([], none)
  | some r =>
    match r.order.head? with
    | none => Except.error PyErr.indexError
    | some best_model =>
      if r.iptm.isSome || r.iptmPtm.isSome then
        match r.iptmPtm with
        | none => Except.error PyErr.keyError
        | some mPtm =>
          match mPtm.lookup best_model with
          | none => Except.error PyErr.keyError
          | some iptm_ptm_score =>
            match obtain_pae_and_iptm d best_model with
            | Except.error e => Except.error e
            | Except.ok (pae_mtx, iptm_score) =>
              match obtain_seq_lengths d with
              | Except.error e => Except.error e
              | Except.ok seq_lengths =>
                let res := examine_inter_pae pae_mtx seq_lengths cutoff
                match obtain_mpdockq d with
                | Except.error e => Except.error e
                | Except.ok (mpDockq_score, plddt_per_chain, _) =>
                  if res.1 then
                    let pl := pdbAnalyser res.2 plddt_per_chain
                    Except.ok
                      ([BatchEvent.scorerInvoked d.name,
                        BatchEvent.analyserCalled d.name res.2],
                        some { jobs := d.name
                               iptm_ptm := iptm_ptm_score
                               iptm := iptm_score
                               average_interface_pae := pl.1
                               average_interface_plddt := pl.2
                               mpDockq_score := mpDockq_score })
                  else
                    Except.ok ([BatchEvent.scorerInvoked d.name], none)
      else Except.ok ([], none)

/-- The whole `for job in jobs` loop of `main` (source lines 174-202):
jobs are processed in enumeration order; the first uncaught exception
aborts the loop (there is no per-job handler); events and accepted rows
accumulate in order. -/
def runBatch (cutoff : ℚ) : List JobDir → Except PyErr (List BatchEvent × List SummaryRow)
  | [] => Except.ok ([], [])
  | d :: rest =>
    match processJob cutoff d with
    | Except.error e => Except.error e
    | Except.ok (evs, orow) =>
      match runBatch cutoff rest with
      | Except.error e => Except.error e
      | Except.ok (evs2, rows) =>
        Except.ok (evs ++ evs2,
          match orow with
          | some row => row :: rows
          | none => rows)

/-- `main` after the loop (source lines 203-226): when at least one job was
accepted the table is written once by `to_csv`; otherwise the explanatory
notice naming the cutoff is logged and nothing is written. -/
def mainRun (cutoff : ℚ) (jobs : List JobDir) : Except PyErr (List BatchEvent) :=
  match runBatch cutoff jobs with
  | Except.error e => Except.error e
  | Except.ok (evs, rows) =>
    if 0 < rows.length then
      Except.ok (evs ++ [BatchEvent.writeCsv rows])
    else
      Except.ok (evs ++ [BatchEvent.emptyNotice cutoff (noticeMessage cutoff)])

/-- Number of table writes in a trace. -/
def countWrites : List BatchEvent → Nat
  | [] => 0
  | BatchEvent.writeCsv _ :: es => countWrites es + 1
  | _ :: es => countWrites es

lemma countWrites_append (a b : List BatchEvent) :
    countWrites (a ++ b) = countWrites a + countWrites b := by
  induction a with
  | nil => simp [countWrites]
  | cons e es ih =>
    cases e
    all_goals simp [countWrites, ih]
    all_goals omega

/-- A ranking file with both an `iptm` and an `iptm+ptm` mapping. -/
def rankBoth : RankingFile :=
  { order := ["model_1"]
    iptm := some [("model_1", (7 : ℚ) / 10)]
    iptmPtm := some [("model_1", (8 : ℚ) / 10)] }

/-- A ranking file whose `iptm` mapping is absent (so the script's
`iptm_score` stays the string `"None"`). -/
def rankNoIptm : RankingFile :=
  { order := ["model_1"]
    iptm := none
    iptmPtm := some [("model_1", (8 : ℚ) / 10)] }

/-- A ranking file of the pipeline variant that has only an `iptm`
mapping and no `iptm+ptm` mapping. -/
def rankIptmOnly : RankingFile :=
  { order := ["model_1"]
    iptm := some [("model_1", (85 : ℚ) / 100)]
    iptmPtm := none }

/-- Two chains, one representative atom each, 1 Å apart (one contact). -/
def goodChains : List ChainInfo :=
  [{ cb := [(0, 0, 0)], plddt := [90] },
   { cb := [(1, 0, 0)], plddt := [80] }]

/-- A single chain (degenerate model: fewer than two chains). -/
def oneChain : List ChainInfo := [{ cb := [(0, 0, 0)], plddt := [90] }]

/-- A 2×2 two-chain matrix with every entry `100` (no confident cell). -/
def highMat : PaeMat := ⟨2, fun _ _ => 100⟩

/-- A complete, acceptable job: ranking with both score mappings, PAE JSON
present, coordinate file present, one inter-chain contact, inter-chain
error `2` below the default cutoff `5`. -/
def jobGood : JobDir :=
  { name := "job_good"
    ranking := some rankBoth
    paeJson := [("model_1", goodMat)]
    pkl := []
    pklGz := []
    pdbSeqLengths := some [1, 1]
    chains := some goodChains }

/-- A job whose artifacts are all fine except that `ranked_0.pdb` is
missing. -/
def jobMissingPdb : JobDir :=
  { name := "job_bad"
    ranking := some rankBoth
    paeJson := [("model_1", goodMat)]
    pkl := []
    pklGz := []
    pdbSeqLengths := none
    chains := none }

/-- A job directory with no `ranking_debug.json`. -/
def jobNoRanking : JobDir :=
  { name := "job_skip"
    ranking := none
    paeJson := []
    pkl := []
    pklGz := []
    pdbSeqLengths := none
    chains := none }

/-- A complete job with no confident inter-chain cell (all errors `100`). -/
def jobNoInterface : JobDir :=
  { name := "job_noint"
    ranking := some rankBoth
    paeJson := [("model_1", highMat)]
    pkl := []
    pklGz := []
    pdbSeqLengths := some [1, 1]
    chains := some goodChains }

/-- C1 counterexample: a failure confined to one job does NOT merely skip
that job.  `jobMissingPdb` has its ranking file but no `ranked_0.pdb`;
`obtain_seq_lengths` raises `FileNotFoundError`, the loop body has no
handler, and the whole two-job batch returns that error — the second
(perfectly good) job is never processed and no result of any kind is
produced. -/
theorem batchAbortsOnMissingPdb :
    processJob 5 jobMissingPdb = Except.error PyErr.fileNotFound ∧
    runBatch 5 [jobMissingPdb, jobGood] = Except.error PyErr.fileNotFound :=
  ⟨rfl, rfl⟩

/-- C1 (amended): the only per-job failure the batch loop tolerates is the
absence of the ranking file — such a job is skipped and processing
continues with the remaining jobs unchanged; any exception raised while
processing a job (missing coordinate file, missing error-matrix artifacts,
parse failure) aborts the whole batch loop with that exception. -/
theorem batch_skip_or_abort (cutoff : ℚ) (d : JobDir) (rest : List JobDir) :
    (d.ranking = none → runBatch cutoff (d :: rest) = runBatch cutoff rest) ∧
    (∀ e, processJob cutoff d = Except.error e →
        runBatch cutoff (d :: rest) = Except.error e) := by
  constructor
  · intro h
    have hp : processJob cutoff d = Except.ok ([], none) := by
      unfold processJob
      rw [h]
    simp only [runBatch, hp]
    cases hr : runBatch cutoff rest with
    | error e => simp
    | ok p => simp
  · intro e he
    simp only [runBatch, he]

/-- Witness for C1 (amended): a job without `ranking_debug.json` is skipped
and the batch over the remaining jobs is unchanged. -/
theorem batch_skip_or_abort_app :
    jobNoRanking.ranking = none ∧
    runBatch 5 (jobNoRanking :: [jobGood]) = runBatch 5 [jobGood] :=
  ⟨rfl, (batch_skip_or_abort 5 jobNoRanking [jobGood]).1 rfl⟩

/-- A job of the `iptm`-only pipeline variant, with every artifact
present. -/
def jobIptmOnly : JobDir :=
  { name := "job_v1"
    ranking := some rankIptmOnly
    paeJson := [("model_1", goodMat)]
    pkl := []
    pklGz := []
    pdbSeqLengths := some [1, 1]
    chains := some goodChains }

/-- C9: the guard at source line 184 accepts a ranking file that has only
an `iptm` mapping, but the body at line 185 unconditionally evaluates
`data['iptm+ptm'][best_model]`, which raises `KeyError` for that variant:
the job does not proceed, it aborts.  This evaluates the embedded code at
the failing input. -/
theorem iptmOnlyRaisesKeyError :
    processJob 5 jobIptmOnly = Except.error PyErr.keyError := rfl



lemma contacts_goodChains : totalContacts goodChains = 1 := by
  norm_num [totalContacts, goodChains, contactsBetween, sqDist, List.filter]

lemma score_complex_goodChains :
    score_complex goodChains = (some (compositeScore goodChains), 2) := by
  have h : goodChains.length = 2 := rfl
  simp [score_complex, contacts_goodChains, h]

lemma obtain_mpdockq_of_goodChains (d : JobDir) (h : d.chains = some goodChains) :
    obtain_mpdockq d =
      Except.ok (DockQ.score (calc_pdockq goodChains),
        goodChains.map fun c => c.plddt, true) := by
  simp [obtain_mpdockq, h, score_complex_goodChains]

/-- Evaluation of one loop iteration of `main` for a job whose every stage
result is known: the matrix stage values are fixed by the hypotheses and
the outcome depends only on the inter-PAE check. -/
lemma processJob_eq (cutoff : ℚ) (d : JobDir) (r : RankingFile)
    (best : String) (mp : List (String × ℚ)) (s : ℚ) (mtx : PaeMat)
    (ipt : PyVal) (ls : List Nat) (dq : DockQ) (pl : List (List ℚ)) (b : Bool)
    (hr : d.ranking = some r) (ho : r.order.head? = some best)
    (hmp : r.iptmPtm = some mp) (hlk : mp.lookup best = some s)
    (hp : obtain_pae_and_iptm d best = Except.ok (mtx, ipt))
    (hsq : obtain_seq_lengths d = Except.ok ls)
    (hq : obtain_mpdockq d = Except.ok (dq, pl, b)) :
    processJob cutoff d =
      if (examine_inter_pae mtx ls cutoff).1 then
        Except.ok ([BatchEvent.scorerInvoked d.name,
            BatchEvent.analyserCalled d.name (examine_inter_pae mtx ls cutoff).2],
          some { jobs := d.name
                 iptm_ptm := s
                 iptm := ipt
                 average_interface_pae :=
                   (pdbAnalyser (examine_inter_pae mtx ls cutoff).2 pl).1
                 average_interface_plddt :=
                   (pdbAnalyser (examine_inter_pae mtx ls cutoff).2 pl).2
                 mpDockq_score := dq })
      else
        Except.ok ([BatchEvent.scorerInvoked d.name], none) := by
  simp only [processJob, hr, ho, hmp, hlk, hp, hsq, hq, Option.isSome_some,
    Bool.or_true, if_true]

/-- C6 counterexample: the dock-quality scorer IS invoked for a job whose
inter-chain confidence check fails.  On `jobNoInterface` every masked cell
is `100` or the sentinel `50`, nothing is below the cutoff `5`, no summary
row is produced — yet the trace records the `obtain_mpdockq` invocation,
because the script computes the dock score before testing `check`
(source lines 191-193). -/
theorem scorerRunsDespiteNoInterface :
    processJob 5 jobNoInterface =
      Except.ok ([BatchEvent.scorerInvoked "job_noint"], none) := by
  have hq := obtain_mpdockq_of_goodChains jobNoInterface rfl
  have hchk : (examine_inter_pae highMat [1, 1] 5).1 = false := by decide
  rw [processJob_eq 5 jobNoInterface rankBoth "model_1"
      [("model_1", (8 : ℚ) / 10)] ((8 : ℚ) / 10) highMat
      (PyVal.num ((7 : ℚ) / 10)) [1, 1] (DockQ.score (calc_pdockq goodChains))
      (goodChains.map fun c => c.plddt) true rfl rfl rfl rfl rfl rfl hq, hchk]
  rfl

/-- C6 (amended): for every job that reaches the matrix stage (ranking file
present with a best model and an `iptm+ptm` score, artifacts loadable), the
dock-quality computation `obtain_mpdockq` is invoked regardless of the
outcome of the inter-chain confidence check; the check only decides whether
a summary row is produced — when it is false the job ends without a row,
but the scorer has already run. -/
theorem scorer_unconditional (cutoff : ℚ) (d : JobDir) (r : RankingFile)
    (best : String) (mp : List (String × ℚ)) (s : ℚ) (mtx : PaeMat)
    (ipt : PyVal) (ls : List Nat) (dq : DockQ) (pl : List (List ℚ)) (b : Bool)
    (hr : d.ranking = some r) (ho : r.order.head? = some best)
    (hmp : r.iptmPtm = some mp) (hlk : mp.lookup best = some s)
    (hp : obtain_pae_and_iptm d best = Except.ok (mtx, ipt))
    (hsq : obtain_seq_lengths d = Except.ok ls)
    (hq : obtain_mpdockq d = Except.ok (dq, pl, b)) :
    ∃ evs orow, processJob cutoff d = Except.ok (evs, orow) ∧
      BatchEvent.scorerInvoked d.name ∈ evs ∧
      ((examine_inter_pae mtx ls cutoff).1 = false → orow = none) := by
  rw [processJob_eq cutoff d r best mp s mtx ipt ls dq pl b hr ho hmp hlk hp hsq hq]
  by_cases hchk : (examine_inter_pae mtx ls cutoff).1 = true
  · rw [if_pos hchk]
    refine ⟨_, _, rfl, ?_, ?_⟩
    · simp
    · intro hfalse
      rw [hchk] at hfalse
      exact Bool.noConfusion hfalse
  · rw [Bool.not_eq_true] at hchk
    rw [hchk, if_neg Bool.false_ne_true]
    exact ⟨_, _, rfl, by simp, fun _ => rfl⟩

/-- Witness for C6 (amended): the concrete job with no confident interface —
the scorer invocation is in the trace even though the check is false and no
row is produced. -/
theorem scorer_unconditional_app :
    (examine_inter_pae highMat [1, 1] 5).1 = false ∧
    ∃ evs orow, processJob 5 jobNoInterface = Except.ok (evs, orow) ∧
      BatchEvent.scorerInvoked jobNoInterface.name ∈ evs ∧
      ((examine_inter_pae highMat [1, 1] 5).1 = false → orow = none) :=
  ⟨by decide,
    scorer_unconditional 5 jobNoInterface rankBoth "model_1"
      [("model_1", (8 : ℚ) / 10)] ((8 : ℚ) / 10) highMat
      (PyVal.num ((7 : ℚ) / 10)) [1, 1] (DockQ.score (calc_pdockq goodChains))
      (goodChains.map fun c => c.plddt) true rfl rfl rfl rfl rfl rfl
      (obtain_mpdockq_of_goodChains jobNoInterface rfl)⟩

/-- C10: for every accepted job, the matrix handed to `pdb_analyser` is the
very object `examine_inter_pae` just mutated in place — the post-call state
of the loaded matrix — and every intra-chain cell of it has been overwritten
with the sentinel `50`. -/
theorem analyser_receives_mutated (cutoff : ℚ) (d : JobDir) (r : RankingFile)
    (best : String) (mp : List (String × ℚ)) (s : ℚ) (mtx : PaeMat)
    (ipt : PyVal) (ls : List Nat) (dq : DockQ) (pl : List (List ℚ)) (b : Bool)
    (hr : d.ranking = some r) (ho : r.order.head? = some best)
    (hmp : r.iptmPtm = some mp) (hlk : mp.lookup best = some s)
    (hp : obtain_pae_and_iptm d best = Except.ok (mtx, ipt))
    (hsq : obtain_seq_lengths d = Except.ok ls)
    (hq : obtain_mpdockq d = Except.ok (dq, pl, b))
    (hchk : (examine_inter_pae mtx ls cutoff).1 = true) :
    (∃ row, processJob cutoff d =
        Except.ok ([BatchEvent.scorerInvoked d.name,
          BatchEvent.analyserCalled d.name (examine_inter_pae mtx ls cutoff).2],
          some row)) ∧
    (∀ i j, inIntraBlock ls i j = true →
        ((examine_inter_pae mtx ls cutoff).2).entry i j = 50) := by
  constructor
  · rw [processJob_eq cutoff d r best mp s mtx ipt ls dq pl b hr ho hmp hlk hp hsq hq,
      if_pos hchk]
    exact ⟨_, rfl⟩
  · intro i j hij
    unfold examine_inter_pae
    rw [maskLoop_entry]
    unfold inIntraBlock at hij
    rw [if_pos hij]

/-- Witness for C10: the accepted concrete job — the analyser receives
exactly the masked matrix, whose intra-chain cell `(0, 0)` is `50`. -/
theorem analyser_receives_mutated_app :
    (examine_inter_pae goodMat [1, 1] 5).1 = true ∧
    (∃ row, processJob 5 jobGood =
        Except.ok ([BatchEvent.scorerInvoked jobGood.name,
          BatchEvent.analyserCalled jobGood.name
            (examine_inter_pae goodMat [1, 1] 5).2],
          some row)) ∧
    (∀ i j, inIntraBlock [1, 1] i j = true →
        ((examine_inter_pae goodMat [1, 1] 5).2).entry i j = 50) :=
  ⟨by decide,
    analyser_receives_mutated 5 jobGood rankBoth "model_1"
      [("model_1", (8 : ℚ) / 10)] ((8 : ℚ) / 10) goodMat
      (PyVal.num ((7 : ℚ) / 10)) [1, 1] (DockQ.score (calc_pdockq goodChains))
      (goodChains.map fun c => c.plddt) true rfl rfl rfl rfl rfl rfl
      (obtain_mpdockq_of_goodChains jobGood rfl) (by decide)⟩

/-- A job whose model has a single chain. -/
def singleChainJob : JobDir :=
  { name := "job_one"
    ranking := some rankBoth
    paeJson := [("model_1", singleMat)]
    pkl := []
    pklGz := []
    pdbSeqLengths := some [1]
    chains := some oneChain }

/-- C5: when the model has fewer than two chains or its chains have no
inter-chain contacts, the composite score is undefined, no dock-quality
regression formula is applied (the instrumentation flag is `false`), and the
job's dock-quality result is the string sentinel `"None"` — a value
distinguishable from a computed numeric score of exactly `0`. -/
theorem mpdockq_degenerate (d : JobDir) (chains : List ChainInfo)
    (hc : d.chains = some chains)
    (hdeg : chains.length < 2 ∨ totalContacts chains = 0) :
    obtain_mpdockq d =
      Except.ok (DockQ.noneSentinel, chains.map fun c => c.plddt, false) ∧
    DockQ.noneSentinel ≠ DockQ.score 0 := by
  have hcond : ¬ (2 ≤ chains.length ∧ totalContacts chains ≠ 0) := by
    rcases hdeg with h | h
    · exact fun hcontra => absurd hcontra.1 (not_le.mpr h)
    · exact fun hcontra => hcontra.2 h
  constructor
  · simp [obtain_mpdockq, hc, score_complex, hcond]
  · exact fun h => DockQ.noConfusion h

/-- Witness for C5: the single-chain job — one chain, sentinel result, no
regression applied. -/
theorem mpdockq_degenerate_app :
    singleChainJob.chains = some oneChain ∧ oneChain.length < 2 ∧
    obtain_mpdockq singleChainJob =
      Except.ok (DockQ.noneSentinel, oneChain.map fun c => c.plddt, false) :=
  ⟨rfl, by decide,
    (mpdockq_degenerate singleChainJob oneChain rfl (Or.inl (by decide))).1⟩

/-- Definition following the spec's words (§6): the error-matrix artifact is
tried in a fixed three-way fallback order — (1) the per-model PAE JSON,
(2) the uncompressed result pickle, (3) the gzip-compressed pickle — and the
first success is used.  Stated for comparison with `obtain_pae_and_iptm`,
the translation of the source. -/
def fallbackSpecProbe (d : JobDir) (best : String) : Option PaeMat :=
  match d.paeJson.lookup best with
  | some mtx => some mtx
  | none =>
    match d.pkl.lookup best with
    | some cd => some cd.predicted_aligned_error
    | none =>
      match d.pklGz.lookup best with
      | some cd => some cd.predicted_aligned_error
      | none => none

/-- An uncompressed result pickle for the best model. -/
def pklDict : ResultDict :=
  { predicted_aligned_error := goodMat, iptm := (6 : ℚ) / 10 }

/-- A job with no PAE JSON but with the result pickle present, whose
ranking metadata already knows the combined confidence score. -/
def jobPklSkipped : JobDir :=
  { name := "job_pkl"
    ranking := some rankBoth
    paeJson := []
    pkl := [("model_1", pklDict)]
    pklGz := []
    pdbSeqLengths := some [1, 1]
    chains := some goodChains }

/-- A job with no PAE JSON, the result pickle present, and no `iptm`
mapping in the ranking metadata (score not already known). -/
def jobPklUsed : JobDir :=
  { name := "job_pkl2"
    ranking := some rankNoIptm
    paeJson := []
    pkl := [("model_1", pklDict)]
    pklGz := []
    pdbSeqLengths := some [1, 1]
    chains := some goodChains }

/-- C4 counterexample: the three-way fallback is NOT honoured.  On
`jobPklSkipped` the PAE JSON is absent and the result pickle is present, so
the spec's first-success probe returns the pickle's matrix — but because the
combined confidence score is already known from ranking metadata, the
script's pickle branch is never entered, `pae_mtx` is never assigned, and
`obtain_pae_and_iptm` raises instead of using artifact (2). -/
theorem paeFallbackSkipsPickle :
    jobPklSkipped.pkl.lookup "model_1" = some pklDict ∧
    fallbackSpecProbe jobPklSkipped "model_1" = some goodMat ∧
    obtain_pae_and_iptm jobPklSkipped "model_1" =
      Except.error PyErr.unboundLocal :=
  ⟨rfl, rfl, rfl⟩

/-- C4 (amended): the PAE JSON is used whenever present (with the score
from ranking metadata); when the JSON is absent, the pickle fallback —
uncompressed, then gzip-compressed, with the score read from whichever blob
loads — is honoured exactly when the combined confidence score is not
already known from ranking metadata (the script's `iptm_score` is still the
string `"None"`); when the JSON is absent and the score is already known,
the function fails with an unbound-local error instead of probing the
pickles. -/
theorem pae_fallback_amended (d : JobDir) (r : RankingFile) (best : String)
    (hr : d.ranking = some r) :
    (∀ mtx, d.paeJson.lookup best = some mtx →
        obtain_pae_and_iptm d best =
          Except.ok (mtx, rankingIptmOf r best)) ∧
    (d.paeJson.lookup best = none → rankingIptmOf r best = PyVal.noneStr →
      (∀ mtx, fallbackSpecProbe d best = some mtx →
          ∃ s, obtain_pae_and_iptm d best = Except.ok (mtx, s)) ∧
      (fallbackSpecProbe d best = none →
          obtain_pae_and_iptm d best = Except.error PyErr.nameError)) ∧
    (d.paeJson.lookup best = none →
        rankingIptmOf r best ≠ PyVal.noneStr →
        obtain_pae_and_iptm d best = Except.error PyErr.unboundLocal) := by
  refine ⟨?_, ?_, ?_⟩
  · intro mtx hj
    simp [obtain_pae_and_iptm, hr, hj]
  · intro hj hn
    constructor
    · intro mtx hpr
      unfold fallbackSpecProbe at hpr
      rw [hj] at hpr
      cases hpk : d.pkl.lookup best with
      | some cd =>
        rw [hpk] at hpr
        simp only [Option.some.injEq] at hpr
        exact ⟨PyVal.num cd.iptm,
          by simp [obtain_pae_and_iptm, hr, hj, hn, hpk, hpr]⟩
      | none =>
        rw [hpk] at hpr
        cases hgz : d.pklGz.lookup best with
        | some cd =>
          rw [hgz] at hpr
          simp only [Option.some.injEq] at hpr
          exact ⟨PyVal.num cd.iptm,
            by simp [obtain_pae_and_iptm, hr, hj, hn, hpk, hgz, hpr]⟩
        | none =>
          rw [hgz] at hpr
          exact Option.noConfusion hpr
    · intro hpr
      unfold fallbackSpecProbe at hpr
      rw [hj] at hpr
      cases hpk : d.pkl.lookup best with
      | some cd => rw [hpk] at hpr; exact Option.noConfusion hpr
      | none =>
        rw [hpk] at hpr
        cases hgz : d.pklGz.lookup best with
        | some cd => rw [hgz] at hpr; exact Option.noConfusion hpr
        | none => simp [obtain_pae_and_iptm, hr, hj, hn, hpk, hgz]
  · intro hj hn
    simp [obtain_pae_and_iptm, hr, hj, hn]

/-- Witness for C4 (amended): on `jobPklUsed` the score is not known from
ranking metadata, so the pickle really is used: the call succeeds with the
pickle's matrix. -/
theorem pae_fallback_amended_app :
    jobPklUsed.ranking = some rankNoIptm ∧
    jobPklUsed.paeJson.lookup "model_1" = none ∧
    rankingIptmOf rankNoIptm "model_1" = PyVal.noneStr ∧
    fallbackSpecProbe jobPklUsed "model_1" = some goodMat ∧
    ∃ s, obtain_pae_and_iptm jobPklUsed "model_1" = Except.ok (goodMat, s) :=
  ⟨rfl, rfl, rfl, rfl,
    ((pae_fallback_amended jobPklUsed rankNoIptm "model_1" rfl).2.1 rfl rfl).1
      goodMat rfl⟩

lemma countWrites_of_ite (c : Prop) [Decidable c]
    (l1 l2 : List BatchEvent) (o1 o2 : Option SummaryRow)
    (evs : List BatchEvent) (orow : Option SummaryRow)
    (h : (if c then
            (Except.ok (l1, o1) :
              Except PyErr (List BatchEvent × Option SummaryRow))
          else Except.ok (l2, o2)) = Except.ok (evs, orow))
    (h1 : countWrites l1 = 0) (h2 : countWrites l2 = 0) :
    countWrites evs = 0 := by
  by_cases hc : c
  · rw [if_pos hc] at h
    injection h with hp
    have hfst : l1 = evs := congrArg Prod.fst hp
    rw [← hfst]
    exact h1
  · rw [if_neg hc] at h
    injection h with hp
    have hfst : l2 = evs := congrArg Prod.fst hp
    rw [← hfst]
    exact h2

lemma processJob_writes_zero (cutoff : ℚ) (d : JobDir) (evs : List BatchEvent)
    (orow : Option SummaryRow)
    (h : processJob cutoff d = Except.ok (evs, orow)) :
    countWrites evs = 0 := by
  unfold processJob at h
  repeat' split at h
  all_goals try simp_all [countWrites]
  all_goals
    exact countWrites_of_ite _ _ _ _ _ _ _ h (by simp [countWrites]) (by simp [countWrites])

lemma runBatch_writes_zero (cutoff : ℚ) (jobs : List JobDir)
    (evs : List BatchEvent) (rows : List SummaryRow)
    (h : runBatch cutoff jobs = Except.ok (evs, rows)) :
    countWrites evs = 0 := by
  induction jobs generalizing evs rows with
  | nil =>
    unfold runBatch at h
    simp only [Except.ok.injEq, Prod.mk.injEq] at h
    rw [← h.1]
    rfl
  | cons d rest ih =>
    unfold runBatch at h
    cases hp : processJob cutoff d with
    | error e => rw [hp] at h; exact Except.noConfusion h
    | ok p =>
      obtain ⟨evs1, orow⟩ := p
      rw [hp] at h
      cases hr : runBatch cutoff rest with
      | error e =>
        simp only [hr] at h
        exact Except.noConfusion h
      | ok q =>
        obtain ⟨evs2, rows2⟩ := q
        simp only [hr, Except.ok.injEq, Prod.mk.injEq] at h
        rw [← h.1, countWrites_append,
          processJob_writes_zero cutoff d evs1 orow hp, ih evs2 rows2 hr]

/-- C8: after the whole batch loop finishes without an exception, either no
job was accepted — then the only terminal action is the empty-result notice
built around the cutoff in use (suggesting a larger cutoff) and nothing is
written — or at least one job was accepted, and then the summary table is
written exactly once. -/
theorem empty_notice_or_single_write (cutoff : ℚ) (jobs : List JobDir)
    (evs : List BatchEvent) (rows : List SummaryRow)
    (h : runBatch cutoff jobs = Except.ok (evs, rows)) :
    (rows = [] →
        mainRun cutoff jobs =
          Except.ok
            (evs ++ [BatchEvent.emptyNotice cutoff (noticeMessage cutoff)]) ∧
        countWrites
          (evs ++ [BatchEvent.emptyNotice cutoff (noticeMessage cutoff)]) = 0) ∧
    (rows ≠ [] →
        mainRun cutoff jobs = Except.ok (evs ++ [BatchEvent.writeCsv rows]) ∧
        countWrites (evs ++ [BatchEvent.writeCsv rows]) = 1) := by
  have hclean := runBatch_writes_zero cutoff jobs evs rows h
  constructor
  · intro hrows
    subst hrows
    constructor
    · unfold mainRun
      rw [h]
      rfl
    · rw [countWrites_append, hclean]
      rfl
  · intro hrows
    have hlen : 0 < rows.length := List.length_pos.mpr hrows
    constructor
    · unfold mainRun
      simp only [h]
      rw [if_pos hlen]
    · rw [countWrites_append, hclean]
      rfl

/-- Witness for C8: the empty batch — no rows, so the terminal action is the
notice naming the cutoff `5`, with zero table writes. -/
theorem empty_notice_or_single_write_app :
    runBatch (5 : ℚ) [] = Except.ok ([], []) ∧
    mainRun 5 [] =
      Except.ok ([] ++ [BatchEvent.emptyNotice 5 (noticeMessage 5)]) ∧
    countWrites ([] ++ [BatchEvent.emptyNotice 5 (noticeMessage 5)]) = 0 :=
  ⟨rfl,
    (empty_notice_or_single_write 5 [] [] [] rfl).1 rfl |>.1,
    (empty_notice_or_single_write 5 [] [] [] rfl).1 rfl |>.2⟩
